import Mathlib

/-!
# Verification of the lobster task orchestrator core

Shallow embedding of the scheduling logic of `lobster/core/source.py`
(class `TaskProvider`) and `lobster/cmssw/dash.py` (class `Dashboard`).

The durable unit store (`lobster/core/unit.py`) is an external collaborator
here: the orchestrator only consumes the results of its queries
(`running_tasks`, `unfinished_units`, `merged`, `pop_unmerged_tasks`,
`pop_units`), so those results appear as explicit inputs (fields of a
`UnitStore` record, or oracle functions) rather than as re-implemented code.
Filesystem state (existence of report files, behaviour of `fs.remove`) is
likewise passed in as an oracle.
-/

namespace Lobster

/-! ## Dashboard status constants (`dash.py`, lines 20-27) -/

def UNKNOWN : String := "Unknown"

def SUBMITTED : String := "Pending"

def DONE : String := "Done"

def RETRIEVED : String := "Retrieved"

def ABORTED : String := "Aborted"

def CANCELLED : String := "Killed"

def RUNNING : String := "Running"

def WAITING_RETRIEVAL : String := "Waiting Retrieval"

/-- Work-queue task states (the keys of `status_map` in `dash.py`). -/
inductive WqState
  | unknown
  | ready
  | running
  | waitingRetrieval
  | retrieved
  | done
  | canceled
deriving Repr, DecidableEq

/-- `status_map` of `dash.py` lines 30-38: work-queue state to dashboard status. -/
def status_map : WqState → String
  | WqState.unknown => UNKNOWN
  | WqState.ready => SUBMITTED
  | WqState.running => RUNNING
  | WqState.waitingRetrieval => WAITING_RETRIEVAL
  | WqState.retrieved => RETRIEVED
  | WqState.done => DONE
  | WqState.canceled => ABORTED

/-! ## Unit store query results

The store itself lives outside the orchestrator; the orchestrator methods
modelled below only read these query results and (for `terminate`) leave the
store untouched. -/

/-- Snapshot of the unit store as seen through its read-only queries:
`merged()`, `unfinished_units()`, `running_tasks()`, plus the full unit
ledger (`units`) used to express that no unit is ever deleted. -/
structure UnitStore where
  merged : Bool
  unfinished_units : Nat
  running_tasks : List Nat
  units : List (Nat × String)
deriving Repr, DecidableEq

/-- `TaskProvider.done` (`source.py` lines 544-546):
`left = store.unfinished_units(); return store.merged() and left == 0`. -/
def done (s : UnitStore) : Bool :=
  s.merged && decide (s.unfinished_units = 0)

/-- `TaskProvider.terminate` (`source.py` lines 539-542): sends one
`(str(id), CANCELLED)` status update per task id returned by
`running_tasks()`, and performs no store mutation at all.  The result is
the unchanged store paired with the data passed to
`dashboard.update_task_status`. -/
def terminate (s : UnitStore) : UnitStore × List (String × String) :=
  (s, s.running_tasks.map (fun id => (toString id, CANCELLED)))

/-- `Dashboard.update_task_status` (`dash.py` lines 219-237): builds exactly
one JobStatus record per `(id, status)` pair.  `gen` abstracts
`generate_ids` (which involves sha1 hashing of the workflow id); each record
carries the generated `jobId`, the generated `sid` and the `StatusValue`. -/
def update_task_status (gen : String → String × String)
    (data : List (String × String)) : List (String × String × String) :=
  data.map (fun p => ((gen p.1).1, (gen p.1).2, p.2))

/-- C6: `done()` returns `True` if and only if the store reports all required
merging complete (`merged()` is true) and the count of unfinished units is
zero. -/
theorem done_iff_merged_and_no_unfinished (s : UnitStore) :
    done s = true ↔ (s.merged = true ∧ s.unfinished_units = 0) := by
  simp [done]

/-- Witness for C6 at a concrete store snapshot. -/
theorem done_iff_merged_and_no_unfinished_witness :
    done { merged := true, unfinished_units := 0, running_tasks := [],
           units := [(1, "merged")] } = true :=
  (done_iff_merged_and_no_unfinished _).mpr ⟨rfl, rfl⟩

/-- C3 as amended: for every task id reported as running by the store when
`terminate()` is called, exactly one `Cancelled` (`"Killed"`) status update
is sent to telemetry — the update list is precisely one
`(str(id), CANCELLED)` pair per running task, in order, and
`update_task_status` turns it into exactly one record per pair, each with
status `CANCELLED` — and the store is not mutated at all: no unit is marked
cancelled in the store and no unit is deleted. -/
theorem terminate_cancels_running_and_deletes_nothing
    (s : UnitStore) (gen : String → String × String) :
    (terminate s).1 = s ∧
    (terminate s).2 = s.running_tasks.map (fun id => (toString id, CANCELLED)) ∧
    (update_task_status gen (terminate s).2).length = s.running_tasks.length ∧
    ∀ r ∈ update_task_status gen (terminate s).2, r.2.2 = CANCELLED := by
  refine ⟨rfl, rfl, by simp [update_task_status, terminate], ?_⟩
  intro r hr
  simp [update_task_status, terminate] at hr
  obtain ⟨id, _, hid⟩ := hr
  simp [← hid]

/-- Witness for C3: two running tasks yield exactly two `Cancelled` records
and an untouched unit ledger. -/
theorem terminate_cancels_running_and_deletes_nothing_witness :
    (terminate { merged := false, unfinished_units := 2, running_tasks := [7, 8],
                 units := [(7, "assigned"), (8, "assigned")] }).1.units =
      [(7, "assigned"), (8, "assigned")] ∧
    (update_task_status (fun t => (t, t))
      (terminate { merged := false, unfinished_units := 2, running_tasks := [7, 8],
                   units := [(7, "assigned"), (8, "assigned")] }).2).length = 2 :=
  ⟨congrArg UnitStore.units
      (terminate_cancels_running_and_deletes_nothing _ (fun t => (t, t))).1,
    (terminate_cancels_running_and_deletes_nothing _ (fun t => (t, t))).2.2.1⟩

/-- C3 counterexample to the claim as stated: `terminate()` does not mark
any running unit as cancelled in the store.  At a concrete store with task 7
running and its unit in state `"assigned"`, `terminate` returns the store
unchanged — the unit ledger still reads `"assigned"`, which is not a
cancelled marking — while `terminate` only produces the telemetry update
list (`source.py` lines 539-542 call nothing but
`dashboard.update_task_status`; no store method is invoked). -/
theorem terminate_does_not_mark_store_cancelled :
    (terminate { merged := false, unfinished_units := 1, running_tasks := [7],
                 units := [(7, "assigned")] }).1
      = { merged := false, unfinished_units := 1, running_tasks := [7],
          units := [(7, "assigned")] } ∧
    (terminate { merged := false, unfinished_units := 1, running_tasks := [7],
                 units := [(7, "assigned")] }).1.units
      = [(7, "assigned")] ∧
    ("assigned" : String) ≠ "cancelled" := by
  refine ⟨rfl, rfl, by decide⟩

/-! ## The per-task completion step of `TaskProvider.release`
(`source.py` lines 462-498) -/

/-- A workflow as `release` sees it: label, `merge_size` threshold, dependent
workflow labels and the `cleanup_input` flag. -/
structure Workflow where
  label : String
  merge_size : Int
  dependents : List String
  cleanup_input : Bool
deriving Repr, DecidableEq

/-- A task handler as `release` reads it after `process`: task id, owning
workflow label (`dataset`), the `(remote, local)` output pairs, the input
files (meaningful for merge handlers), the output metadata (`output_info`,
abstracted to a `Nat` token) and the merge tag.  The source distinguishes
merge handlers by `isinstance(handler, MergeTaskHandler)`; here that runtime
type test is the `merge` tag. -/
structure TaskHandler where
  id : Nat
  dataset : String
  outputs : List (String × String)
  input_files : List String
  output_info : Nat
  merge : Bool
deriving Repr, DecidableEq

/-- Result of `handler.process(task, summary, transfers)` as far as `release`
consumes it: the `failed` flag and the `file_update` triples whose third
component is a file name (`source.py` line 494 destructures them as
`(_, _, f)`). -/
structure ProcessResult where
  failed : Bool
  file_update : List (Nat × Nat × String)
deriving Repr, DecidableEq

/-- Effects `release` accumulates for one completed task in the
`with self.measure('handler')` block (`source.py` lines 474-496):
directory moves, the two cleanup lists, the propagation entries
`(dependent label, first output's local name, output_info)` and the
`input_files` entries scheduled for `finished_files`. -/
structure ReleaseEffects where
  moves : List (Nat × String)
  fail_cleanup : List String
  merge_cleanup : List String
  propagate : List (String × String × Nat)
  input_files : List (String × String)
deriving Repr, DecidableEq

/-- The per-task handler block of `TaskProvider.release` (`source.py`
lines 474-496).  On failure: move to `failed`, schedule the outputs' local
files for cleanup.  On success: move to `successful`; if
`(wflow.merge_size <= 0 or merge) and len(handler.outputs) > 0`, record
`propagate[dep.label][outfn] = outinfo` for every dependent, where
`outfn = handler.outputs[0][1]` and `outinfo = handler.output_info`; a merge
handler's `input_files` go to `merge_cleanup`; with `cleanup_input` set, the
`file_update` file names go to the per-dataset `input_files` set. -/
def handleCompleted (wflow : Workflow) (handler : TaskHandler)
    (pr : ProcessResult) : ReleaseEffects :=
  if pr.failed then
    { moves := [(handler.id, "failed")]
      fail_cleanup := handler.outputs.map Prod.snd
      merge_cleanup := []
      propagate := []
      input_files := [] }
  else
    { moves := [(handler.id, "successful")]
      fail_cleanup := []
      merge_cleanup := if handler.merge then handler.input_files else []
      propagate :=
        if (decide (wflow.merge_size ≤ 0) || handler.merge)
            && decide (0 < handler.outputs.length) then
          wflow.dependents.map
            (fun dep => (dep, (handler.outputs.headD ("", "")).2, handler.output_info))
        else []
      input_files :=
        if wflow.cleanup_input then
          pr.file_update.map (fun t => (handler.dataset, t.2.2))
        else [] }

/-- C1: in `release()`, a task whose handler reports success is moved to the
`successful` area, and its first output file's metadata
(`handler.output_info`, keyed by `handler.outputs[0][1]`) is propagated to
every dependent workflow exactly when the owning workflow requires no merge
(`merge_size <= 0`) or the task is itself a merge task, and the handler has
at least one output; a task whose handler reports failure is moved to the
`failed` area with its output files scheduled for cleanup, and nothing is
propagated. -/
theorem release_moves_and_propagates (w : Workflow) (h : TaskHandler)
    (pr : ProcessResult) :
    (pr.failed = true →
      (handleCompleted w h pr).moves = [(h.id, "failed")] ∧
      (handleCompleted w h pr).fail_cleanup = h.outputs.map Prod.snd ∧
      (handleCompleted w h pr).propagate = []) ∧
    (pr.failed = false →
      (handleCompleted w h pr).moves = [(h.id, "successful")] ∧
      ∀ dep ∈ w.dependents,
        ((dep, (h.outputs.headD ("", "")).2, h.output_info)
            ∈ (handleCompleted w h pr).propagate ↔
          ((w.merge_size ≤ 0 ∨ h.merge = true) ∧ h.outputs ≠ []))) := by
  constructor
  · intro hf
    simp [handleCompleted, hf]
  · intro hf
    refine ⟨by simp [handleCompleted, hf], ?_⟩
    intro dep hdep
    simp only [handleCompleted, hf, if_neg Bool.false_ne_true]
    cases hcond : (decide (w.merge_size ≤ 0) || h.merge)
        && decide (0 < h.outputs.length) with
    | true =>
      rw [if_pos rfl]
      simp only [Bool.and_eq_true, Bool.or_eq_true, decide_eq_true_eq] at hcond
      constructor
      · intro _
        refine ⟨hcond.1, ?_⟩
        intro hnil
        rw [hnil] at hcond
        exact absurd hcond.2 (by simp)
      · intro _
        exact List.mem_map.mpr ⟨dep, hdep, rfl⟩
    | false =>
      rw [if_neg Bool.false_ne_true]
      simp only [List.not_mem_nil, false_iff]
      intro hcontra
      rw [Bool.and_eq_false_iff] at hcond
      rcases hcond with hc | hc
      · rw [Bool.or_eq_false_iff] at hc
        rcases hcontra.1 with hm | hm
        · exact absurd (decide_eq_true hm) (by simp [hc.1])
        · exact absurd hm (by simp [hc.2])
      · exact absurd (decide_eq_true (List.length_pos.mpr hcontra.2))
          (by simp [hc])

/-- Witness for C1: a successful merge-handler task with one output and one
dependent does propagate; a failed task is moved to `failed` with its
outputs scheduled for cleanup and nothing propagated. -/
theorem release_moves_and_propagates_witness :
    ((handleCompleted ⟨"w", 100, ["child"], false⟩
        ⟨3, "w", [("r.root", "l.root")], ["in.root"], 42, true⟩
        ⟨false, []⟩).moves = [(3, "successful")] ∧
      (("child", "l.root", 42) ∈
        (handleCompleted ⟨"w", 100, ["child"], false⟩
          ⟨3, "w", [("r.root", "l.root")], ["in.root"], 42, true⟩
          ⟨false, []⟩).propagate ↔
        ((100 : Int) ≤ 0 ∨ true = true) ∧
          ([(("r.root" : String), ("l.root" : String))] ≠ []))) ∧
    ((handleCompleted ⟨"w", 100, ["child"], false⟩
        ⟨4, "w", [("r.root", "l.root")], [], 42, false⟩
        ⟨true, []⟩).propagate = []) := by
  constructor
  · have hs := (release_moves_and_propagates ⟨"w", 100, ["child"], false⟩
      ⟨3, "w", [("r.root", "l.root")], ["in.root"], 42, true⟩ ⟨false, []⟩).2 rfl
    exact ⟨hs.1, hs.2 "child" (by decide)⟩
  · exact ((release_moves_and_propagates ⟨"w", 100, ["child"], false⟩
      ⟨4, "w", [("r.root", "l.root")], [], 42, false⟩ ⟨true, []⟩).1 rfl).2.2

/-! ## The merge branch of `TaskProvider.obtain`
(`source.py` lines 391-441) -/

/-- What `obtain` does with one merge TaskInfo (`source.py` lines 391-441).
`reportExists t` abstracts `os.path.isfile(self.get_report(label, t))` and
`infileOf t` abstracts `list(wflow.get_outputs(t))[0][1]`; `lumis` carries
the constituent prior task ids (the first component of each lumi tuple).

The loop partitions constituents by report existence; `update_missing` is
called with the absent ones exactly when there is at least one
(`if len(missing) > 0`); `files` is rebound to the present constituents
(`files = infiles`).  When `len(infiles) <= 1` the source only emits a debug
message ("skipping task ... with only one input file!") guarded by a FIXME —
no `continue` or unclaiming follows, so the task is still assembled,
appended to the returned task list and given a handler: `appended` is
unconditionally `true`.  `obtain` issues no `update_task_status` call at
all, so `status_updates` is empty. -/
structure ObtainedMergeTask where
  missing : List Nat
  update_missing_called : Bool
  files : List (Nat × String)
  skip_message_only : Bool
  appended : Bool
  status_updates : List (String × String)
deriving Repr, DecidableEq

/-- The merge branch of `obtain` for a single merge TaskInfo, translated from
`source.py` lines 391-441. -/
def obtainMergeTask (reportExists : Nat → Bool) (infileOf : Nat → String)
    (lumis : List Nat) : ObtainedMergeTask :=
  let infiles := (lumis.filter (fun t => reportExists t)).map
    (fun t => (t, infileOf t))
  let missing := lumis.filter (fun t => !(reportExists t))
  { missing := missing
    update_missing_called := decide (0 < missing.length)
    files := infiles
    skip_message_only := decide (infiles.length ≤ 1)
    appended := true
    status_updates := [] }

/-- C2, evaluated at the failing input: a merge task assembled from a single
constituent whose report file exists ends up with exactly one input file,
yet it is still appended to the dispatched task list (`appended = true`);
the code only logs the "skipping" debug message (`skip_message_only`), it
does not skip the task. -/
theorem merge_singleton_still_dispatched :
    (obtainMergeTask (fun _ => true) (fun _ => "out.root") [3]).files.length = 1 ∧
    (obtainMergeTask (fun _ => true) (fun _ => "out.root") [3]).appended = true ∧
    (obtainMergeTask (fun _ => true) (fun _ => "out.root") [3]).skip_message_only
      = true := by
  refine ⟨rfl, rfl, rfl⟩

/-- C4: when a constituent prior task's report file is absent, that prior
task id is in the list passed to `update_missing` (which is called), it is
excluded from the merge task's input files, and no telemetry status update
is issued by `obtain`. -/
theorem merge_missing_reported_not_dispatched
    (reportExists : Nat → Bool) (infileOf : Nat → String)
    (lumis : List Nat) (t : Nat)
    (ht : t ∈ lumis) (hr : reportExists t = false) :
    t ∈ (obtainMergeTask reportExists infileOf lumis).missing ∧
    (obtainMergeTask reportExists infileOf lumis).update_missing_called = true ∧
    (∀ p ∈ (obtainMergeTask reportExists infileOf lumis).files, p.1 ≠ t) ∧
    (obtainMergeTask reportExists infileOf lumis).status_updates = [] := by
  have hmem : t ∈ lumis.filter (fun x => !(reportExists x)) :=
    List.mem_filter.mpr ⟨ht, by simp [hr]⟩
  refine ⟨hmem, ?_, ?_, rfl⟩
  · have hpos : 0 < (lumis.filter (fun x => !(reportExists x))).length :=
      List.length_pos.mpr (fun hnil => by
        rw [hnil] at hmem
        exact List.not_mem_nil t hmem)
    simpa [obtainMergeTask] using hpos
  · intro p hp
    simp only [obtainMergeTask, List.mem_map, List.mem_filter] at hp
    obtain ⟨x, ⟨_, hx⟩, hpx⟩ := hp
    intro hpt
    rw [← hpx] at hpt
    simp only at hpt
    rw [hpt] at hx
    rw [hr] at hx
    exact Bool.false_ne_true hx

/-- Witness for C4: constituents 5 (report present) and 6 (report absent);
task 6 goes to `update_missing` and is excluded from the input files. -/
theorem merge_missing_reported_not_dispatched_witness :
    6 ∈ (obtainMergeTask (fun t => t == 5) (fun _ => "out.root") [5, 6]).missing ∧
    (obtainMergeTask (fun t => t == 5) (fun _ => "out.root")
      [5, 6]).update_missing_called = true ∧
    (∀ p ∈ (obtainMergeTask (fun t => t == 5) (fun _ => "out.root") [5, 6]).files,
      p.1 ≠ 6) ∧
    (obtainMergeTask (fun t => t == 5) (fun _ => "out.root")
      [5, 6]).status_updates = [] :=
  merge_missing_reported_not_dispatched (fun t => t == 5) (fun _ => "out.root")
    [5, 6] 6 (by decide) (by decide)

/-! ## Taskinfo assembly order in `TaskProvider.obtain`
(`source.py` lines 327-335) -/

/-- The fields of a store TaskInfo tuple `(id, label, files, lumis,
unique_arg, merge)` that the ordering claim needs. -/
structure TaskInfo where
  id : Nat
  label : String
  merge : Bool
deriving Repr, DecidableEq

/-- The taskinfo-collection prefix of `obtain` (`source.py` lines 329-335):
`taskinfos = []`; first one `pop_unmerged_tasks(wflow.label,
wflow.merge_size, 10)` call per workflow, then one `pop_units(label, ntasks,
taper)` call per allocation directive, each extending the same list.
`popUnmerged` and `popUnits` are the store oracles; `directives` is what
`self.__algo.run(total, tasks, remaining)` yielded. -/
def obtainTaskinfos (popUnmerged : String → Int → Nat → List TaskInfo)
    (popUnits : String → Nat → Nat → List TaskInfo)
    (wflows : List Workflow)
    (directives : List (String × Nat × Nat)) : List TaskInfo :=
  let l1 := wflows.foldl
    (fun acc w => acc ++ popUnmerged w.label w.merge_size 10) []
  directives.foldl (fun acc d => acc ++ popUnits d.1 d.2.1 d.2.2) l1

theorem foldl_append_start {α β : Type} (f : α → List β) (l : List α)
    (start : List β) :
    l.foldl (fun acc x => acc ++ f x) start
      = start ++ l.foldl (fun acc x => acc ++ f x) [] := by
  induction l generalizing start with
  | nil => simp
  | cons a l ih =>
    simp only [List.foldl_cons, List.nil_append]
    rw [ih (start ++ f a), ih (f a), List.append_assoc]

theorem mem_foldl_append {α β : Type} (f : α → List β) (l : List α)
    (b : β) (hb : b ∈ l.foldl (fun acc x => acc ++ f x) []) :
    ∃ x ∈ l, b ∈ f x := by
  induction l with
  | nil => exact absurd hb (List.not_mem_nil b)
  | cons a l ih =>
    rw [List.foldl_cons, foldl_append_start, List.nil_append,
      List.mem_append] at hb
    rcases hb with hb | hb
    · exact ⟨a, List.mem_cons_self a l, hb⟩
    · obtain ⟨x, hx, hbx⟩ := ih hb
      exact ⟨x, List.mem_cons_of_mem a hx, hbx⟩

theorem pairwise_of_forall_mem {α : Type} (R : α → α → Prop) (l : List α)
    (hall : ∀ a ∈ l, ∀ b ∈ l, R a b) : List.Pairwise R l := by
  induction l with
  | nil => exact List.Pairwise.nil
  | cons a l ih =>
    refine List.Pairwise.cons ?_ (ih ?_)
    · intro b hb
      exact hall a (List.mem_cons_self a l) b (List.mem_cons_of_mem a hb)
    · intro x hx y hy
      exact hall x (List.mem_cons_of_mem a hx) y (List.mem_cons_of_mem a hy)

/-- C5: `obtain` performs merge-task claiming (`pop_unmerged_tasks`, with
`max_batches = 10`, per workflow) for every workflow before any new-unit
claiming (`pop_units`), so — given that `pop_unmerged_tasks` returns only
merge TaskInfos and `pop_units` only non-merge ones — the assembled list is
the concatenation of the merge part and the new-unit part, and every merge
TaskInfo precedes every new-unit TaskInfo (pairwise: a later merge entry
forces every earlier entry to be merge too). -/
theorem merge_taskinfos_precede_units
    (popUnmerged : String → Int → Nat → List TaskInfo)
    (popUnits : String → Nat → Nat → List TaskInfo)
    (wflows : List Workflow) (directives : List (String × Nat × Nat))
    (hm : ∀ l m b, ∀ t ∈ popUnmerged l m b, t.merge = true)
    (hn : ∀ l n tp, ∀ t ∈ popUnits l n tp, t.merge = false) :
    obtainTaskinfos popUnmerged popUnits wflows directives
      = (wflows.foldl
          (fun acc w => acc ++ popUnmerged w.label w.merge_size 10) [])
        ++ (directives.foldl
          (fun acc d => acc ++ popUnits d.1 d.2.1 d.2.2) []) ∧
    List.Pairwise (fun a b => b.merge = true → a.merge = true)
      (obtainTaskinfos popUnmerged popUnits wflows directives) := by
  have hsplit : obtainTaskinfos popUnmerged popUnits wflows directives
      = (wflows.foldl
          (fun acc w => acc ++ popUnmerged w.label w.merge_size 10) [])
        ++ (directives.foldl
          (fun acc d => acc ++ popUnits d.1 d.2.1 d.2.2) []) := by
    unfold obtainTaskinfos
    exact foldl_append_start _ directives _
  refine ⟨hsplit, ?_⟩
  rw [hsplit]
  have hml : ∀ t ∈ wflows.foldl
      (fun acc w => acc ++ popUnmerged w.label w.merge_size 10) [],
      t.merge = true := by
    intro t ht
    obtain ⟨w, _, htw⟩ := mem_foldl_append _ wflows t ht
    exact hm w.label w.merge_size 10 t htw
  have hnl : ∀ t ∈ directives.foldl
      (fun acc d => acc ++ popUnits d.1 d.2.1 d.2.2) [],
      t.merge = false := by
    intro t ht
    obtain ⟨d, _, htd⟩ := mem_foldl_append _ directives t ht
    exact hn d.1 d.2.1 d.2.2 t htd
  rw [List.pairwise_append]
  refine ⟨?_, ?_, ?_⟩
  · exact pairwise_of_forall_mem _ _ (fun a ha b _ => fun _ => hml a ha)
  · exact pairwise_of_forall_mem _ _ (fun a _ b hb => fun hbm =>
      absurd hbm (by simp [hnl b hb]))
  · intro a _ b hb hbm
    exact absurd hbm (by simp [hnl b hb])

/-- Witness for C5 at concrete oracles: one workflow yielding one merge
TaskInfo and one directive yielding one new-unit TaskInfo. -/
theorem merge_taskinfos_precede_units_witness :
    List.Pairwise (fun a b => b.merge = true → a.merge = true)
      (obtainTaskinfos (fun _ _ _ => [⟨1, "w", true⟩])
        (fun _ _ _ => [⟨2, "w", false⟩])
        [⟨"w", 100, [], false⟩] [("w", 1, 1)]) :=
  (merge_taskinfos_precede_units (fun _ _ _ => [⟨1, "w", true⟩])
    (fun _ _ _ => [⟨2, "w", false⟩]) [⟨"w", 100, [], false⟩] [("w", 1, 1)]
    (by intro l m b t ht; simp at ht; rw [ht])
    (by intro l n tp t ht; simp at ht; rw [ht])).2

/-! ## The cleanup / propagation / transfer tail of `TaskProvider.release`
(`source.py` lines 510-530) -/

/-- Outcome of a call to `fs.remove(*cleanup)`: it either returns, or raises
one of the exception types the surrounding `try` names (`IOError`,
`OSError`, `ValueError`) — the exact types the two `except` clauses at
`source.py` lines 518-521 catch. -/
inductive RemoveOutcome
  | ok
  | ioError
  | osError
  | valueError (msg : String)
deriving Repr, DecidableEq

/-- One iteration of the cleanup loop (`source.py` lines 514-521):
`if len(cleanup) > 0: try: fs.remove(*cleanup) except (IOError, OSError):
pass except ValueError as e: logger.error(...)`.  The result is
`Except.ok logs`: the `except (IOError, OSError)` clause is a bare `pass`
(no log entry), the `except ValueError` clause emits one error log line, and
in no case does an exception propagate. -/
def removeAttempt (rm : List String → RemoveOutcome)
    (cleanup : List String) : Except String (List String) :=
  if 0 < cleanup.length then
    match rm cleanup with
    | RemoveOutcome.ok => Except.ok []
    | RemoveOutcome.ioError => Except.ok []
    | RemoveOutcome.osError => Except.ok []
    | RemoveOutcome.valueError msg => Except.ok ["error removing: " ++ msg]
  else Except.ok []

/-- The log lines the cleanup loop produces for one cleanup list: one
`logger.error` line when `fs.remove` raised `ValueError`, none otherwise. -/
def valueErrorLog (rm : List String → RemoveOutcome)
    (cleanup : List String) : List String :=
  if 0 < cleanup.length then
    match rm cleanup with
    | RemoveOutcome.valueError msg => ["error removing: " ++ msg]
    | _ => []
  else []

/-- The tail of `release` after the store commit (`source.py` lines
510-530): extend `input_cleanup` by `finished_files`, run the cleanup loop
over `[fail_cleanup, merge_cleanup + input_cleanup]`, then the propagation
loop (`register_files` once per label in `propagate`), then
`update_transfers` when any transfers were recorded.  `registered` lists the
labels passed to `register_files`, in order. -/
structure ReleaseTailResult where
  cleanup_logs : List String
  registered : List String
  transfers_updated : Bool
deriving Repr, DecidableEq

/-- Translation of `source.py` lines 510-530 (the `cleanup`, `propagate` and
`transfers` blocks of `release`). -/
def releaseTail (rm : List String → RemoveOutcome)
    (fail_cleanup merge_cleanup input_cleanup : List String)
    (propagate : List (String × List (String × Nat)))
    (transfers : Nat) : Except String ReleaseTailResult := do
  let logs1 ← removeAttempt rm fail_cleanup
  let logs2 ← removeAttempt rm (merge_cleanup ++ input_cleanup)
  Except.ok
    { cleanup_logs := logs1 ++ logs2
      registered := propagate.map Prod.fst
      transfers_updated := decide (0 < transfers) }

theorem removeAttempt_eq_log (rm : List String → RemoveOutcome)
    (cleanup : List String) :
    removeAttempt rm cleanup = Except.ok (valueErrorLog rm cleanup) := by
  unfold removeAttempt valueErrorLog
  by_cases hc : 0 < cleanup.length
  · rw [if_pos hc, if_pos hc]
    cases rm cleanup <;> rfl
  · rw [if_neg hc, if_neg hc]

/-- C7 (amended): whatever `fs.remove` does on each cleanup list — return,
or raise `IOError`, `OSError` or `ValueError` — the release tail never
aborts: it returns `Except.ok`, its cleanup log holds entries only for
`ValueError` (so a swallowed `IOError`/`OSError` leaves no log line), and
the subsequent steps still run: `register_files` is reached for every
propagation label and the transfer-counter update happens exactly when
transfers were recorded. -/
theorem cleanup_swallows_and_continues (rm : List String → RemoveOutcome)
    (fail_cleanup merge_cleanup input_cleanup : List String)
    (propagate : List (String × List (String × Nat))) (transfers : Nat) :
    releaseTail rm fail_cleanup merge_cleanup input_cleanup propagate transfers
      = Except.ok
        { cleanup_logs := valueErrorLog rm fail_cleanup
            ++ valueErrorLog rm (merge_cleanup ++ input_cleanup)
          registered := propagate.map Prod.fst
          transfers_updated := decide (0 < transfers) } := by
  unfold releaseTail
  rw [removeAttempt_eq_log, removeAttempt_eq_log]
  rfl

/-- C7 counterexample to the claim as stated: with `fs.remove` raising
`IOError` on the (nonempty) failed-output cleanup list, the release tail
completes but its cleanup log is empty — the I/O error is swallowed by the
bare `pass`, not logged. -/
theorem cleanup_io_error_never_logged :
    releaseTail (fun _ => RemoveOutcome.ioError) ["failed-out.root"] [] []
        [("child", [("out.root", 42)])] 1
      = Except.ok
        { cleanup_logs := []
          registered := ["child"]
          transfers_updated := true } ∧
    (fun _ => RemoveOutcome.ioError) (["failed-out.root"] : List String)
      = RemoveOutcome.ioError := by
  refine ⟨rfl, rfl⟩

/-! ## The handler-map discipline of `TaskProvider.release`
(`source.py` lines 462-508) -/

/-- Lookup in the orchestrator's `self.__taskhandlers` dict (keys are task
tags).  `handlers` is an association list with unique keys, the shallow
embedding of a Python dict. -/
def lookupHandler (handlers : List (Nat × TaskHandler)) (tag : Nat) :
    Option TaskHandler :=
  (handlers.find? (fun p => p.1 == tag)).map Prod.snd

/-- `del self.__taskhandlers[task.tag]` (`source.py` line 498). -/
def eraseHandler (handlers : List (Nat × TaskHandler)) (tag : Nat) :
    List (Nat × TaskHandler) :=
  handlers.filter (fun p => p.1 != tag)

/-- The task loop of `release` (`source.py` lines 462-508) as it concerns
unit-state transitions: for each returned task tag, in order,
`handler = self.__taskhandlers[task.tag]` (a missing key raises `KeyError`,
aborting the call), the handler's deltas are appended to `update`, and the
handler entry is deleted.  Only when the whole loop finishes does
`self.__store.update_units(update)` run (line 508), so an aborted call
commits no unit transition at all.  The result is the surviving handler map
and the list of tags whose deltas were committed. -/
def releaseLoop (handlers : List (Nat × TaskHandler)) (tags : List Nat) :
    Except String (List (Nat × TaskHandler) × List Nat) :=
  match tags with
  | [] => Except.ok (handlers, [])
  | t :: rest =>
    match lookupHandler handlers t with
    | none => Except.error "KeyError"
    | some _ =>
      match releaseLoop (eraseHandler handlers t) rest with
      | Except.ok (hs, committed) => Except.ok (hs, t :: committed)
      | Except.error e => Except.error e

theorem lookup_erase_self (handlers : List (Nat × TaskHandler)) (tag : Nat) :
    lookupHandler (eraseHandler handlers tag) tag = none := by
  induction handlers with
  | nil => rfl
  | cons p rest ih =>
    unfold eraseHandler lookupHandler
    by_cases hp : p.1 = tag
    · simp only [List.filter_cons, hp, bne_self_eq_false]
      exact ih
    · have hne : (p.1 != tag) = true := bne_iff_ne.mpr hp
      simp only [List.filter_cons, hne, if_pos]
      unfold List.find?
      have hbeq : (p.1 == tag) = false := beq_eq_false_iff_ne.mpr hp
      rw [hbeq]
      exact ih

/-- C8: after a `release` call has processed a completed task id, that id's
handler entry is gone from the orchestrator's handler map (removed exactly
once, by the `del` at line 498), so a second `release` call with the same id
raises `KeyError` at the handler lookup and commits no unit transition: the
task's unit states are not transitioned a second time. -/
theorem release_second_call_rejected (handlers : List (Nat × TaskHandler))
    (t : Nat) (survivors : List (Nat × TaskHandler)) (committed : List Nat)
    (hfirst : releaseLoop handlers [t] = Except.ok (survivors, committed)) :
    lookupHandler survivors t = none ∧
    releaseLoop survivors [t] = Except.error "KeyError" := by
  unfold releaseLoop at hfirst
  cases hl : lookupHandler handlers t with
  | none => rw [hl] at hfirst; exact absurd hfirst (by simp)
  | some h =>
    rw [hl] at hfirst
    have hinner : releaseLoop (eraseHandler handlers t) []
        = Except.ok (eraseHandler handlers t, []) := rfl
    rw [hinner] at hfirst
    simp only [Except.ok.injEq, Prod.mk.injEq] at hfirst
    have hsurv : survivors = eraseHandler handlers t := hfirst.1.symm
    have hnone : lookupHandler survivors t = none := by
      rw [hsurv]
      exact lookup_erase_self handlers t
    refine ⟨hnone, ?_⟩
    unfold releaseLoop
    rw [hnone]

/-- Witness for C8: a one-entry handler map; the first release commits task
1 and the second is rejected with `KeyError`. -/
theorem release_second_call_rejected_witness :
    lookupHandler
      ((releaseLoop [(1, ⟨1, "w", [], [], 0, false⟩)] [1]).toOption.getD
        ([], [])).1 1 = none ∧
    releaseLoop
      ((releaseLoop [(1, ⟨1, "w", [], [], 0, false⟩)] [1]).toOption.getD
        ([], [])).1 [1] = Except.error "KeyError" :=
  release_second_call_rejected [(1, ⟨1, "w", [], [], 0, false⟩)] 1 [] [1] rfl

/-! ## `Dashboard.update_tasks` (`dash.py` lines 239-265) and the
`TaskProvider.update` wrapper (`source.py` lines 551-560) -/

/-- The mutable dashboard state: `self.__previous` (time of the last
reported call, initialised to 0) and `self.__states` (the per-task status
map, initialised empty) — `dash.py` lines 106-107. -/
structure DashState where
  previous : Int
  states : List (Nat × String)
deriving Repr, DecidableEq

/-- `self.__states.get(id_)`: dict lookup in the status map. -/
def lookupState (states : List (Nat × String)) (id : Nat) : Option String :=
  (states.find? (fun p => p.1 == id)).map Prod.snd

/-- Python truthiness of `self.__states.get(id_)` under `not`: `None` and
the empty string are falsy. -/
def pyFalsy : Option String → Bool
  | none => true
  | some s => s == ""

/-- `self.__states.update({id_: status})`: replace the entry if the key is
present, append it otherwise. -/
def setState (states : List (Nat × String)) (id : Nat) (status : String) :
    List (Nat × String) :=
  if (states.find? (fun p => p.1 == id)).isSome then
    states.map (fun p => if p.1 == id then (id, status) else p)
  else states ++ [(id, status)]

/-- The body of the `for id_ in ids` loop of `update_tasks` (`dash.py` lines
256-264), threading `(data, states)`: skip when the mapped status is
excluded; skip when `not self.__states.get(id_) or
self.__states.get(id_, status) != status`; otherwise append `(id_, status)`
to `data` and update the status map. -/
def update_tasks_step (exclude : List String)
    (acc : List (Nat × String) × List (Nat × String)) (p : Nat × WqState) :
    List (Nat × String) × List (Nat × String) :=
  let status := status_map p.2
  if exclude.contains status then acc
  else if pyFalsy (lookupState acc.2 p.1)
      || ((lookupState acc.2 p.1).getD status != status) then acc
  else (acc.1 ++ [(p.1, status)], setState acc.2 p.1 status)

/-- Result of one `update_tasks` call: the new dashboard state and, when the
rate gate passed, the `data` list handed to `self.update_task_status`
(`none` means the method returned at line 246, before touching the
queue). -/
structure UpdateTasksResult where
  state : DashState
  sent : Option (List (Nat × String))
deriving Repr, DecidableEq

/-- `Dashboard.update_tasks` (`dash.py` lines 239-265).  The rate gate is
`report = time.time() > self.__previous + self.interval`; when it fails the
method returns immediately (no telemetry, queue unread, state untouched).
Otherwise `self.__previous` is set to the current time, the loop filters the
queue snapshot, and `update_task_status(data)` is called. -/
def update_tasks (now interval : Int) (d : DashState)
    (queue : List (Nat × WqState)) (exclude : List String) :
    UpdateTasksResult :=
  if now > d.previous + interval then
    let r := queue.foldl (update_tasks_step exclude) ([], d.states)
    { state := { previous := now, states := r.2 }, sent := some r.1 }
  else { state := d, sent := none }

/-- `TaskProvider.update` (`source.py` lines 551-560): the `update_tasks`
call is wrapped in `try ... except Exception`, which logs a warning plus the
exception and returns.  The wrapper is a total function of the call's
outcome: an exception becomes two log lines, never a propagated error. -/
def update (result : Except String UpdateTasksResult) : List String :=
  match result with
  | Except.ok _ => []
  | Except.error e => ["could not update task states to dashboard", e]

/-- C9: a call to `update_tasks` made strictly less than `interval` seconds
after the previous reported call returns with the dashboard state untouched
and nothing sent (`sent = none`), independently of the queue; and an
exception raised by `update_tasks` inside `TaskProvider.update` is turned
into log lines and never propagated. -/
theorem update_tasks_rate_limited_and_errors_caught
    (now interval : Int) (d : DashState) (queue : List (Nat × WqState))
    (exclude : List String) (msg : String)
    (hlt : now - d.previous < interval) :
    update_tasks now interval d queue exclude = { state := d, sent := none } ∧
    update (Except.error msg)
      = ["could not update task states to dashboard", msg] := by
  refine ⟨?_, rfl⟩
  unfold update_tasks
  rw [if_neg]
  omega

/-- Witness for C9: a call 2 seconds after the previous call with a
300-second interval sends nothing and leaves the state unchanged. -/
theorem update_tasks_rate_limited_and_errors_caught_witness :
    update_tasks 2 300 { previous := 0, states := [] }
        [(1, WqState.running)] [] =
      { state := { previous := 0, states := [] }, sent := none } ∧
    update (Except.error "boom")
      = ["could not update task states to dashboard", "boom"] :=
  update_tasks_rate_limited_and_errors_caught 2 300
    { previous := 0, states := [] } [(1, WqState.running)] [] "boom"
    (by norm_num)

/-- The dashboard state as `Dashboard.__init__` leaves it (`dash.py` lines
106-107): `self.__previous = 0`, `self.__states = {}`. -/
def dashboardInit : DashState := { previous := 0, states := [] }

/-- A sequence of `update_tasks` calls, each given as
`(now, interval, queue, exclude)`, threading the dashboard state and
collecting every `data` list that was handed to `update_task_status`. -/
def runCalls (d : DashState)
    (calls : List (Int × Int × List (Nat × WqState) × List String)) :
    DashState × List (List (Nat × String)) :=
  match calls with
  | [] => (d, [])
  | c :: rest =>
    let r := update_tasks c.1 c.2.1 d c.2.2.1 c.2.2.2
    let rest' := runCalls r.state rest
    (rest'.1,
      (match r.sent with | some data => [data] | none => []) ++ rest'.2)

theorem update_tasks_step_empty (exclude : List String)
    (data : List (Nat × String)) (p : Nat × WqState) :
    update_tasks_step exclude (data, []) p = (data, []) := by
  unfold update_tasks_step
  by_cases hc : exclude.contains (status_map p.2)
  · rw [if_pos hc]
  · rw [if_neg hc, if_pos]
    simp [lookupState, pyFalsy]

theorem foldl_step_empty (exclude : List String)
    (queue : List (Nat × WqState)) (data : List (Nat × String)) :
    queue.foldl (update_tasks_step exclude) (data, []) = (data, []) := by
  induction queue generalizing data with
  | nil => rfl
  | cons p rest ih =>
    rw [List.foldl_cons, update_tasks_step_empty]
    exact ih data

theorem update_tasks_empty_states (now interval : Int) (d : DashState)
    (queue : List (Nat × WqState)) (exclude : List String)
    (hd : d.states = []) :
    (update_tasks now interval d queue exclude).state.states = [] ∧
    ((update_tasks now interval d queue exclude).sent.getD []) = [] := by
  unfold update_tasks
  by_cases hg : now > d.previous + interval
  · rw [if_pos hg]
    rw [hd, foldl_step_empty]
    exact ⟨rfl, rfl⟩
  · rw [if_neg hg]
    exact ⟨hd, rfl⟩

theorem runCalls_empty_states (d : DashState)
    (calls : List (Int × Int × List (Nat × WqState) × List String))
    (hd : d.states = []) :
    (runCalls d calls).1.states = [] ∧
    (runCalls d calls).2.all List.isEmpty = true := by
  induction calls generalizing d with
  | nil => exact ⟨hd, rfl⟩
  | cons c rest ih =>
    have hstep := update_tasks_empty_states c.1 c.2.1 d c.2.2.1 c.2.2.2 hd
    have hrest := ih (update_tasks c.1 c.2.1 d c.2.2.1 c.2.2.2).state hstep.1
    unfold runCalls
    refine ⟨hrest.1, ?_⟩
    rw [List.all_append]
    refine (Bool.and_eq_true _ _).mpr ⟨?_, hrest.2⟩
    cases hs : (update_tasks c.1 c.2.1 d c.2.2.1 c.2.2.2).sent with
    | none => rfl
    | some data =>
      have hdata : data = [] := by
        have := hstep.2
        rw [hs] at this
        exact this
      rw [hdata]
      rfl

/-- C10: starting from the freshly initialised dashboard state, across any
sequence of `update_tasks` calls the per-task status map stays empty and
every `data` list handed to `update_task_status` is empty — a task id with
no previously recorded state is always skipped (the skip condition
`not self.__states.get(id_) or ...` fires), and the map is only written for
forwarded tasks, so no per-task status is ever reported through this
path. -/
theorem update_tasks_forwards_nothing
    (calls : List (Int × Int × List (Nat × WqState) × List String)) :
    (runCalls dashboardInit calls).1.states = [] ∧
    (runCalls dashboardInit calls).2.all List.isEmpty = true :=
  runCalls_empty_states dashboardInit calls rfl

end Lobster
